import Mathlib

/-!
Shallow embedding of the spatial-transform and multiscale-metadata core of
the fibsem-tools repository (`src/fibsem_tools/metadata/transform.py` and
`src/fibsem_tools/metadata/cosem.py`), together with theorems settling the
specification claims about it.

Python floats are modelled as rationals (`ℚ`), Python sequences as lists,
fallible constructors and classmethods as `Except String`-valued functions.
-/

deriving instance DecidableEq for Except

/-- Python's built-in `abs` on ℚ-modelled floats. -/
def pyAbs (x : ℚ) : ℚ := if x < 0 then -x else x

theorem pyAbs_eq_abs (x : ℚ) : pyAbs x = |x| := by
  unfold pyAbs
  rcases lt_or_le x 0 with h | h
  · simp [h, abs_of_neg h]
  · simp [not_lt.mpr h, abs_of_nonneg h]

/-- The `order` field of `STTransform`: `"C"` (row-major) or `"F"` (column-major). -/
inductive AxisOrder where
  | C
  | F
deriving DecidableEq, Repr

/-- A 1-D labelled coordinate array, as produced by `xarray.DataArray` for a single
dimension: its dimension name (`c.dims[0]`), its values, and the optional
`"units"` entry of its `attrs` dict. -/
structure DataCoord where
  dim : String
  values : List ℚ
  unitsAttr : Option String
deriving DecidableEq, Repr

/-- An `xarray.DataArray` as far as this core inspects it: its per-dimension
coordinate arrays (in the order of `array.coords.values()`), its shape, the
chunking of its underlying data (`None` when the data is not chunked), and its dtype. -/
structure DataArray where
  coords : List DataCoord
  shape : List Nat
  chunks : Option (List Nat)
  dtype : String
deriving DecidableEq, Repr

/-- Modelled from the spec: `fibsem_tools.io.xr.stt_coord` is imported by
`transform.py` but its module is not under src/. Spec §4.1: each coordinate array
has length `shape[i]` with values `translate + k*scale` for `k = 0, 1, ...`,
labelled with the axis name and the unit. -/
def stt_coord (size : Nat) (dim : String) (scale translate : ℚ) (unit : String) :
    DataCoord :=
  ⟨dim, (List.range size).map (fun k => translate + k * scale), some unit⟩

/-- `fibsem_tools.metadata.transform.STTransform`: axis-labelled scale + translation
transform. The four sequences are parallel: `axes[i]` has unit `units[i]`,
origin `translate[i]` and spacing `scale[i]`. -/
structure STTransform where
  order : AxisOrder
  axes : List String
  units : List String
  translate : List ℚ
  scale : List ℚ
deriving DecidableEq, Repr

namespace STTransform

/-- The `validate_argument_length` root validator: all four sequences must have
equal length. -/
def validate_argument_length (axes units : List String) (translate scale : List ℚ) :
    Prop :=
  axes.length = units.length ∧ units.length = translate.length ∧
    translate.length = scale.length

instance (axes units : List String) (translate scale : List ℚ) :
    Decidable (validate_argument_length axes units translate scale) :=
  inferInstanceAs (Decidable (_ ∧ _ ∧ _))

/-- Constructing an `STTransform` through pydantic: runs `validate_argument_length`
and raises `ValueError` (here: `Except.error`) on mismatched lengths. -/
def construct (order : AxisOrder) (axes units : List String)
    (translate scale : List ℚ) : Except String STTransform :=
  if validate_argument_length axes units translate scale then
    Except.ok ⟨order, axes, units, translate, scale⟩
  else
    Except.error "The length of all arguments must match."

/-- The loop body of `STTransform.from_coords`: walk the coordinate sequences in
order, accumulating `(axes, units, translate, scale)`. A coordinate with fewer
than two elements raises `ValueError`; a non-positive computed scale fails the
`assert scale[-1] > 0`. -/
def inferLoop : List DataCoord →
    Except String (List String × List String × List ℚ × List ℚ)
  | [] => Except.ok ([], [], [], [])
  | c :: rest =>
      if c.values.length < 2 then
        Except.error ("The coordinate with dims = " ++ c.dim ++
          " does not have enough elements to calculate a scaling transformation. A minimum of 2 elements are needed.")
      else
        let t : ℚ := c.values.getD 0 0
        let s : ℚ := pyAbs (c.values.getD 1 0 - c.values.getD 0 0)
        if 0 < s then
          match inferLoop rest with
          | Except.ok (axs, us, ts, ss) =>
              Except.ok (c.dim :: axs, c.unitsAttr.getD "m" :: us, t :: ts, s :: ss)
          | Except.error e => Except.error e
        else
          Except.error "assert scale[-1] > 0"

/-- `STTransform.from_coords`: infer a transform from a sequence of 1-D labelled
coordinate arrays. -/
def from_coords (coords : List DataCoord) (order : AxisOrder := AxisOrder.C) :
    Except String STTransform :=
  match inferLoop coords with
  | Except.ok (axs, us, ts, ss) => construct order axs us ts ss
  | Except.error e => Except.error e

/-- `STTransform.to_coords`: emit one coordinate array per axis. When
`order = "C"` the axes are consumed forward; when `order = "F"` the axis-name
sequence is reversed, while `shape`, `scale`, `translate` and `units` are still
indexed by the forward enumeration index (exactly as in the source). -/
def to_coords (t : STTransform) (shape : List Nat) : List DataCoord :=
  let axes := if t.order = AxisOrder.C then t.axes else t.axes.reverse
  axes.enum.map (fun ik =>
    stt_coord (shape.getD ik.1 0) ik.2 (t.scale.getD ik.1 0)
      (t.translate.getD ik.1 0) (t.units.getD ik.1 ""))

/-- `STTransform.from_xarray`: infer a transform from a `DataArray`; with
`reverse_axes = true` the coordinate sequence is reversed and the result is
tagged `"F"`. -/
def from_xarray (a : DataArray) (reverse_axes : Bool := false) :
    Except String STTransform :=
  if reverse_axes then
    from_coords a.coords.reverse AxisOrder.F
  else
    from_coords a.coords AxisOrder.C

end STTransform

example : STTransform.from_coords [⟨"x", [0, 1, 2], some "nm"⟩] AxisOrder.C =
    Except.ok ⟨AxisOrder.C, ["x"], ["nm"], [0], [1]⟩ := by with_unfolding_all decide

example : STTransform.from_coords [⟨"x", [5], none⟩] AxisOrder.C =
    Except.error ("The coordinate with dims = x" ++
      " does not have enough elements to calculate a scaling transformation. A minimum of 2 elements are needed.") := by
  with_unfolding_all decide

example : STTransform.from_coords [⟨"x", [3, 3], none⟩] AxisOrder.C =
    Except.error "assert scale[-1] > 0" := by with_unfolding_all decide

example :
    STTransform.to_coords ⟨AxisOrder.C, ["x", "y"], ["nm", "um"], [0, 10], [1, 2]⟩
      [2, 3] =
    [⟨"x", [0, 1], some "nm"⟩, ⟨"y", [10, 12, 14], some "um"⟩] := by with_unfolding_all decide

example :
    STTransform.to_coords ⟨AxisOrder.F, ["x", "y"], ["nm", "um"], [0, 10], [1, 2]⟩
      [2, 2] =
    [⟨"y", [0, 1], some "nm"⟩, ⟨"x", [10, 12], some "um"⟩] := by with_unfolding_all decide

/-- A dynamically-typed Python value. Needed because
`CosemMultiscaleGroupV1.from_xarrays` binds the components of its `zip` in a
scrambled order, so the members dict it builds is keyed by chunk shapes while
the strings intended as keys are passed as the `chunks` argument. -/
inductive PyVal where
  | ofStr (s : String)
  | ofShape (ns : List Nat)
deriving DecidableEq, Repr

/-- The `paths` argument of the v2 builders: the literal `"auto"` or an explicit
list of path names. -/
inductive PathsArg where
  | auto
  | explicit (ps : List String)
deriving DecidableEq, Repr

/-- The `chunks` argument of the group builders: the literal `"auto"` or an
explicit collection of chunk shapes, one per array. -/
inductive ChunksArg where
  | auto
  | explicit (cs : List (List Nat))
deriving DecidableEq, Repr

/-- `fibsem_tools.metadata.cosem.normalize_paths`: `"auto"` resolves to
`s0, s1, …`; an explicit list is returned unchanged (its length is not checked). -/
def normalize_paths (arrays : List DataArray) (paths : PathsArg) : List String :=
  match paths with
  | PathsArg.auto => (List.range arrays.length).map (fun idx => "s" ++ toString idx)
  | PathsArg.explicit ps => ps

/-- Modelled from the spec: `fibsem_tools.io.util.normalize_chunks` is imported by
`cosem.py` but its module is not under src/. Spec §4.4: the chunk policy is either
an explicit per-array chunk-shape list, matching the input order and length, or an
automatic policy — inherit the chunking of an already-chunked array, else a single
chunk spanning the full shape; an explicit list whose length disagrees with the
array count fails immediately (spec §7, PolicyLengthMismatch). -/
def normalize_chunks (arrays : List DataArray) (chunks : ChunksArg) :
    Except String (List (List Nat)) :=
  match chunks with
  | ChunksArg.auto => Except.ok (arrays.map (fun a => a.chunks.getD a.shape))
  | ChunksArg.explicit cs =>
      if cs.length = arrays.length then
        Except.ok cs
      else
        Except.error
          "PolicyLengthMismatch: the number of chunks does not match the number of arrays"

/-- `ScaleMetaV1`: one scale-level descriptor of the v1 metadata. -/
structure ScaleMetaV1 where
  path : String
  transform : STTransform
deriving DecidableEq, Repr

/-- `MultiscaleMetaV1`: a named list of v1 scale descriptors. -/
structure MultiscaleMetaV1 where
  name : Option String
  datasets : List ScaleMetaV1
deriving DecidableEq, Repr

/-- `MultiscaleMetaV2`: a named list of bare dataset paths. -/
structure MultiscaleMetaV2 where
  name : Option String
  datasets : List String
deriving DecidableEq, Repr

/-- `CosemGroupMetadataV1`: v1 group-level multiscale metadata. -/
structure CosemGroupMetadataV1 where
  multiscales : List MultiscaleMetaV1
deriving DecidableEq, Repr

/-- Sequential effectful map over a list, mirroring the evaluation order of a
Python list comprehension whose element expression can raise: the first raise
aborts the whole comprehension. -/
def mapExcept {α β : Type} (f : α → Except String β) : List α → Except String (List β)
  | [] => Except.ok []
  | a :: as =>
      match f a with
      | Except.error e => Except.error e
      | Except.ok b =>
          match mapExcept f as with
          | Except.error e => Except.error e
          | Except.ok bs => Except.ok (b :: bs)

/-- `CosemGroupMetadataV1.from_xarrays`: one multiscale entry whose datasets pair
each scale name with the transform inferred from that array. -/
def CosemGroupMetadataV1.from_xarrays (arrays : List (String × DataArray))
    (name : Option String := none) : Except String CosemGroupMetadataV1 :=
  match mapExcept (fun pa =>
      match STTransform.from_xarray pa.2 with
      | Except.error e => Except.error e
      | Except.ok t => Except.ok (ScaleMetaV1.mk pa.1 t)) arrays with
  | Except.error e => Except.error e
  | Except.ok datasets => Except.ok ⟨[⟨name, datasets⟩]⟩

/-- `CosemGroupMetadataV2`: v2 group-level multiscale metadata. -/
structure CosemGroupMetadataV2 where
  multiscales : List MultiscaleMetaV2
deriving DecidableEq, Repr

/-- `CosemGroupMetadataV2.from_xarrays`: one multiscale entry holding only the
resolved path names. -/
def CosemGroupMetadataV2.from_xarrays (arrays : List DataArray)
    (paths : PathsArg := PathsArg.auto) (name : Option String := none) :
    CosemGroupMetadataV2 :=
  ⟨[⟨name, normalize_paths arrays paths⟩]⟩

/-- `CosemArrayAttrs`: the per-array attributes, carrying the array's transform. -/
structure CosemArrayAttrs where
  transform : STTransform
deriving DecidableEq, Repr

/-- `CosemMultiscaleArray`: an array specification (shape, dtype, chunks,
attributes). The `chunks` field is `PyVal` because the v1 group builder passes a
string where a chunk shape is expected (see `CosemMultiscaleGroupV1.from_xarrays`). -/
structure CosemMultiscaleArray where
  shape : List Nat
  dtype : String
  chunks : PyVal
  attributes : CosemArrayAttrs
deriving DecidableEq, Repr

/-- Modelled from the spec: `pydantic_zarr.v2.ArraySpec.from_array` is not under
src/. Spec §3/§4.4: an array specification carries the source array's shape and
dtype, the supplied chunks, and the supplied attributes. Extra `**kwargs`
(further `ArraySpec` constructor arguments) are not modelled. -/
def CosemMultiscaleArray.from_array (a : DataArray) (attributes : CosemArrayAttrs)
    (chunks : PyVal) : CosemMultiscaleArray :=
  ⟨a.shape, a.dtype, chunks, attributes⟩

/-- `CosemMultiscaleArray.from_xarray`: infer the array's transform and build its
specification. -/
def CosemMultiscaleArray.from_xarray (a : DataArray) (chunks : PyVal) :
    Except String CosemMultiscaleArray :=
  match STTransform.from_xarray a with
  | Except.error e => Except.error e
  | Except.ok t => Except.ok (CosemMultiscaleArray.from_array a ⟨t⟩ chunks)

/-- Python's 3-argument `zip`, truncating to the shortest input. -/
def zip3 {α β γ : Type} (as : List α) (bs : List β) (cs : List γ) :
    List (α × β × γ) :=
  as.zip (bs.zip cs)

/-- `CosemMultiscaleGroupV1`: group specification with v1 metadata. The members
mapping is modelled as an association list whose keys are `PyVal` (see `PyVal`). -/
structure CosemMultiscaleGroupV1 where
  attributes : CosemGroupMetadataV1
  members : List (PyVal × CosemMultiscaleArray)
deriving DecidableEq, Repr

/-- `CosemMultiscaleGroupV1.from_xarrays`. The source builds the members dict by
`zip(arrays.values(), arrays.keys(), _chunks)` bound as `for arr, cnks, key`:
`cnks` therefore receives the scale *name* and `key` receives the chunk shape,
exactly as reproduced here. -/
def CosemMultiscaleGroupV1.from_xarrays (arrays : List (String × DataArray))
    (chunks : ChunksArg := ChunksArg.auto) (name : Option String := none) :
    Except String CosemMultiscaleGroupV1 :=
  match normalize_chunks (arrays.map Prod.snd) chunks with
  | Except.error e => Except.error e
  | Except.ok _chunks =>
      match CosemGroupMetadataV1.from_xarrays arrays name with
      | Except.error e => Except.error e
      | Except.ok attrs =>
          match mapExcept (fun t =>
              let arr := t.1
              let cnks := t.2.1
              let key := t.2.2
              match CosemMultiscaleArray.from_xarray arr (PyVal.ofStr cnks) with
              | Except.error e => Except.error e
              | Except.ok spec => Except.ok (PyVal.ofShape key, spec))
            (zip3 (arrays.map Prod.snd) (arrays.map Prod.fst) _chunks) with
          | Except.error e => Except.error e
          | Except.ok members => Except.ok ⟨attrs, members⟩

/-- `CosemMultiscaleGroupV2`: group specification with v2 metadata. -/
structure CosemMultiscaleGroupV2 where
  attributes : CosemGroupMetadataV2
  members : List (PyVal × CosemMultiscaleArray)
deriving DecidableEq, Repr

/-- `CosemMultiscaleGroupV2.from_xarrays`: resolves paths (unchecked) and chunks
(length-checked), then zips `arrays`, `_chunks`, `_paths` — in this builder the
zip components and the loop binders agree. -/
def CosemMultiscaleGroupV2.from_xarrays (arrays : List DataArray)
    (chunks : ChunksArg := ChunksArg.auto) (paths : PathsArg := PathsArg.auto)
    (name : Option String := none) : Except String CosemMultiscaleGroupV2 :=
  let _paths := normalize_paths arrays paths
  match normalize_chunks arrays chunks with
  | Except.error e => Except.error e
  | Except.ok _chunks =>
      let attrs := CosemGroupMetadataV2.from_xarrays arrays (PathsArg.explicit _paths) name
      match mapExcept (fun t =>
          match CosemMultiscaleArray.from_xarray t.1 (PyVal.ofShape t.2.1) with
          | Except.error e => Except.error e
          | Except.ok spec => Except.ok (PyVal.ofStr t.2.2, spec))
        (zip3 arrays _chunks _paths) with
      | Except.error e => Except.error e
      | Except.ok members => Except.ok ⟨attrs, members⟩

/-- `fibsem_tools.metadata.cosem.multiscale_group(arrays=…, chunks=…, **kwargs)`:
its body is `return CosemMultiscaleGroupV1.from_xarrays(arrays)` — the `chunks`
and `kwargs` parameters are accepted but never used. -/
def multiscale_group (arrays : List (String × DataArray)) (chunks : ChunksArg)
    (kwargs : List (String × PyVal)) : Except String CosemMultiscaleGroupV1 :=
  CosemMultiscaleGroupV1.from_xarrays arrays ChunksArg.auto none

example :
    (CosemMultiscaleGroupV1.from_xarrays
        [("s0", ⟨[⟨"x", [0, 1, 2, 3], some "nm"⟩], [4], none, "uint8"⟩)]
        ChunksArg.auto none).map
      (fun g => g.members.map Prod.fst) =
    Except.ok [PyVal.ofShape [4]] := by with_unfolding_all decide

example :
    (CosemMultiscaleGroupV2.from_xarrays
        [⟨[⟨"x", [0, 1, 2, 3], some "nm"⟩], [4], none, "uint8"⟩]
        ChunksArg.auto PathsArg.auto none).map
      (fun g => g.members.map Prod.fst) =
    Except.ok [PyVal.ofStr "s0"] := by with_unfolding_all decide

/-- A coordinate sequence from which `STTransform.from_coords` can infer a
spacing: at least two elements, and a strictly positive absolute difference
between the first two values. -/
def canInfer (c : DataCoord) : Prop :=
  2 ≤ c.values.length ∧ 0 < pyAbs (c.values.getD 1 0 - c.values.getD 0 0)

instance (c : DataCoord) : Decidable (canInfer c) :=
  inferInstanceAs (Decidable (_ ∧ _))

theorem inferLoop_ok_of {coords : List DataCoord}
    (h : ∀ c ∈ coords, canInfer c) :
    STTransform.inferLoop coords =
      Except.ok (coords.map DataCoord.dim,
        coords.map (fun c => c.unitsAttr.getD "m"),
        coords.map (fun c => c.values.getD 0 0),
        coords.map (fun c => pyAbs (c.values.getD 1 0 - c.values.getD 0 0))) := by
  induction coords with
  | nil => rfl
  | cons c0 rest ih =>
      have hc0 := h c0 (List.mem_cons_self c0 rest)
      have hrest : ∀ c ∈ rest, canInfer c := fun c hc => h c (List.mem_cons_of_mem c0 hc)
      rw [STTransform.inferLoop]
      have h2 : ¬ c0.values.length < 2 := not_lt.mpr hc0.1
      simp only [h2, if_false, hc0.2, if_true, ih hrest, List.map_cons]

theorem inferLoop_ok_mem {coords : List DataCoord} {parts}
    (h : STTransform.inferLoop coords = Except.ok parts) :
    ∀ c ∈ coords, canInfer c := by
  induction coords generalizing parts with
  | nil => intro c hc; simp at hc
  | cons c0 rest ih =>
      intro c hc
      rw [STTransform.inferLoop] at h
      split at h
      · simp at h
      · rename_i h2
        cases hrest : STTransform.inferLoop rest with
        | error e =>
            simp only [hrest] at h
            split at h <;> simp at h
        | ok p =>
            obtain ⟨axs, us, ts, ss⟩ := p
            simp only [hrest] at h
            split at h
            · rename_i hs
              rcases List.mem_cons.mp hc with rfl | hc
              · exact ⟨not_lt.mp h2, hs⟩
              · exact ih hrest c hc
            · simp at h

theorem from_coords_ok {coords : List DataCoord} (order : AxisOrder)
    (h : ∀ c ∈ coords, canInfer c) :
    STTransform.from_coords coords order =
      Except.ok ⟨order, coords.map DataCoord.dim,
        coords.map (fun c => c.unitsAttr.getD "m"),
        coords.map (fun c => c.values.getD 0 0),
        coords.map (fun c => pyAbs (c.values.getD 1 0 - c.values.getD 0 0))⟩ := by
  rw [STTransform.from_coords, inferLoop_ok_of h]
  exact if_pos (by simp [STTransform.validate_argument_length])

theorem from_coords_ok_mem {coords : List DataCoord} {order : AxisOrder}
    {t : STTransform} (h : STTransform.from_coords coords order = Except.ok t) :
    ∀ c ∈ coords, canInfer c := by
  rw [STTransform.from_coords] at h
  cases hloop : STTransform.inferLoop coords with
  | error e => rw [hloop] at h; simp at h
  | ok p => exact inferLoop_ok_mem hloop

theorem from_coords_error_of_bad {coords : List DataCoord} {order : AxisOrder}
    (hbad : ¬ ∀ c ∈ coords, canInfer c) :
    ∃ e, STTransform.from_coords coords order = Except.error e := by
  cases hfc : STTransform.from_coords coords order with
  | ok t => exact absurd (from_coords_ok_mem hfc) hbad
  | error e => exact ⟨e, rfl⟩

theorem canInfer_of_ne {c : DataCoord} (h2 : 2 ≤ c.values.length)
    (hne : c.values.getD 1 0 ≠ c.values.getD 0 0) : canInfer c :=
  ⟨h2, by rw [pyAbs_eq_abs]; exact abs_sub_pos.mpr hne⟩

theorem take2_getD_length {l₁ l₂ : List ℚ} (h : l₁.take 2 = l₂.take 2) :
    l₁.getD 0 0 = l₂.getD 0 0 ∧ l₁.getD 1 0 = l₂.getD 1 0 ∧
      (l₁.length < 2 ↔ l₂.length < 2) := by
  have hlen : min 2 l₁.length = min 2 l₂.length := by
    simpa [List.length_take] using congrArg List.length h
  refine ⟨?_, ?_, by omega⟩
  · have h0 := congrArg (fun l => l[0]?.getD (0:ℚ)) h
    simpa [List.getElem?_take, List.getD_eq_getElem?_getD] using h0
  · have h1 := congrArg (fun l => l[1]?.getD (0:ℚ)) h
    simpa [List.getElem?_take, List.getD_eq_getElem?_getD] using h1

/-- The relation on coordinate sequences under which inference cannot
distinguish them: same dimension name, same unit annotation, same first two
values (samples past the second may differ arbitrarily, in number and value). -/
def sameFirstTwo (c₁ c₂ : DataCoord) : Prop :=
  c₁.dim = c₂.dim ∧ c₁.unitsAttr = c₂.unitsAttr ∧ c₁.values.take 2 = c₂.values.take 2

theorem inferLoop_congr {coords₁ coords₂ : List DataCoord}
    (h : List.Forall₂ sameFirstTwo coords₁ coords₂) :
    STTransform.inferLoop coords₁ = STTransform.inferLoop coords₂ := by
  induction h with
  | nil => rfl
  | cons hc hrest ih =>
      rename_i c₁ c₂ cs₁ cs₂
      obtain ⟨hdim, hunits, htake⟩ := hc
      obtain ⟨h0, h1, hlt⟩ := take2_getD_length htake
      rw [STTransform.inferLoop, STTransform.inferLoop]
      by_cases hl : c₁.values.length < 2
      · rw [if_pos hl, if_pos (hlt.mp hl), hdim]
      · rw [if_neg hl, if_neg (fun hx => hl (hlt.mpr hx))]
        simp only [h0, h1, hdim, hunits, ih]

/-- C7: constructing an STTransform with axes/units/translate/scale sequences not
all of equal length always fails with a validation error, for every combination
of mismatched lengths, and construction succeeds exactly when all four lengths
are equal. -/
theorem C7_construct_length_validation (order : AxisOrder) (axes units : List String)
    (translate scale : List ℚ) :
    ((∃ e, STTransform.construct order axes units translate scale = Except.error e) ↔
      ¬ (axes.length = units.length ∧ units.length = translate.length ∧
          translate.length = scale.length)) ∧
    (STTransform.construct order axes units translate scale =
        Except.ok ⟨order, axes, units, translate, scale⟩ ↔
      (axes.length = units.length ∧ units.length = translate.length ∧
          translate.length = scale.length)) := by
  unfold STTransform.construct
  by_cases hv : STTransform.validate_argument_length axes units translate scale
  · rw [if_pos hv]
    exact ⟨⟨fun ⟨e, he⟩ => by simp at he, fun hnv => absurd hv hnv⟩, iff_of_true rfl hv⟩
  · rw [if_neg hv]
    exact ⟨iff_of_true ⟨_, rfl⟩ hv, iff_of_false (by simp) hv⟩

/-- Witness for C7 at concrete inputs: a mismatched combination fails, the
matched one succeeds. -/
theorem C7_witness :
    (∃ e, STTransform.construct AxisOrder.C ["x", "y"] ["m"] [0] [1] =
        Except.error e) ∧
    STTransform.construct AxisOrder.C ["x"] ["m"] [0] [1] =
      Except.ok ⟨AxisOrder.C, ["x"], ["m"], [0], [1]⟩ :=
  ⟨(C7_construct_length_validation AxisOrder.C ["x", "y"] ["m"] [0] [1]).1.mpr
      (by decide),
   (C7_construct_length_validation AxisOrder.C ["x"] ["m"] [0] [1]).2.mpr
      (by decide)⟩

/-- C6: inference from coordinates errors whenever some coordinate sequence has
fewer than two elements, errors whenever the computed scale is not strictly
positive (in particular for two equal leading values), and from a single
two-element coordinate a < b infers scale = b - a > 0. -/
theorem C6_inference_failure_modes :
    (∀ (coords : List DataCoord) (order : AxisOrder),
        (∃ c ∈ coords, c.values.length < 2) →
        ∃ e, STTransform.from_coords coords order = Except.error e) ∧
    (∀ (coords : List DataCoord) (order : AxisOrder),
        (∃ c ∈ coords, ¬ 0 < pyAbs (c.values.getD 1 0 - c.values.getD 0 0)) →
        ∃ e, STTransform.from_coords coords order = Except.error e) ∧
    (∀ (d : String) (u : Option String) (a b : ℚ) (order : AxisOrder), a < b →
        STTransform.from_coords [⟨d, [a, b], u⟩] order =
          Except.ok ⟨order, [d], [u.getD "m"], [a], [b - a]⟩ ∧ 0 < b - a) := by
  refine ⟨?_, ?_, ?_⟩
  · rintro coords order ⟨c, hc, hlen⟩
    exact from_coords_error_of_bad (fun hall => by
      have := (hall c hc).1; omega)
  · rintro coords order ⟨c, hc, hscale⟩
    exact from_coords_error_of_bad (fun hall => absurd (hall c hc).2 hscale)
  · intro d u a b order hab
    have hpos : 0 < b - a := sub_pos.mpr hab
    have hcan : canInfer ⟨d, [a, b], u⟩ := by
      unfold canInfer
      refine ⟨by simp, ?_⟩
      show 0 < pyAbs (b - a)
      rw [pyAbs_eq_abs]
      exact abs_sub_pos.mpr (ne_of_gt hab)
    refine ⟨?_, hpos⟩
    have hmap := @from_coords_ok ([⟨d, [a, b], u⟩] : List DataCoord) order
      (fun c hc => by rw [List.mem_singleton.mp hc]; exact hcan)
    rw [hmap]
    simp only [List.map_cons, List.map_nil]
    show Except.ok (⟨order, [d], [u.getD "m"], [a], [pyAbs (b - a)]⟩ : STTransform) = _
    rw [pyAbs_eq_abs, abs_of_pos hpos]

/-- Witness for C6: a too-short coordinate errors, a zero-spacing coordinate
errors, and [4, 7] infers scale 3 > 0. -/
theorem C6_witness :
    ((∃ c ∈ ([⟨"x", [5], none⟩] : List DataCoord), c.values.length < 2) ∧
      (∃ e, STTransform.from_coords [⟨"x", [5], none⟩] AxisOrder.C =
        Except.error e)) ∧
    ((∃ c ∈ ([⟨"x", [3, 3], none⟩] : List DataCoord),
        ¬ 0 < pyAbs (c.values.getD 1 0 - c.values.getD 0 0)) ∧
      (∃ e, STTransform.from_coords [⟨"x", [3, 3], none⟩] AxisOrder.C =
        Except.error e)) ∧
    ((4 : ℚ) < 7 ∧
      (STTransform.from_coords [⟨"z", [4, 7], some "nm"⟩] AxisOrder.F =
          Except.ok ⟨AxisOrder.F, ["z"], ["nm"], [4], [7 - 4]⟩ ∧ (0:ℚ) < 7 - 4)) :=
  have h1 : ∃ c ∈ ([⟨"x", [5], none⟩] : List DataCoord), c.values.length < 2 := by
    with_unfolding_all decide
  have h2 : ∃ c ∈ ([⟨"x", [3, 3], none⟩] : List DataCoord),
      ¬ 0 < pyAbs (c.values.getD 1 0 - c.values.getD 0 0) := by
    with_unfolding_all decide
  have h3 : (4 : ℚ) < 7 := by with_unfolding_all decide
  ⟨⟨h1, C6_inference_failure_modes.1 _ AxisOrder.C h1⟩,
   ⟨h2, C6_inference_failure_modes.2.1 _ AxisOrder.C h2⟩,
   ⟨h3, C6_inference_failure_modes.2.2 "z" (some "nm") 4 7 AxisOrder.F h3⟩⟩

/-- C8 counterexample: a coordinate sequence with two (equal) elements, so every
sequence has at least 2 elements, yet inference raises the scale assertion
instead of producing a transform — the claim needs the first two values to
differ. -/
theorem C8_counterexample :
    STTransform.from_coords [⟨"x", [0, 0], some "nm"⟩] AxisOrder.C =
      Except.error "assert scale[-1] > 0" := by
  with_unfolding_all decide

/-- C8 (amended): for coordinate sequences with at least 2 elements whose first
two values differ, inference produces a transform whose per-sequence axis name is
the dimension name, unit is the annotation (default "m"), translate is the first
value, and scale is the absolute difference of the first two values. -/
theorem C8_inference_field_mapping (coords : List DataCoord) (order : AxisOrder)
    (h : ∀ c ∈ coords, 2 ≤ c.values.length ∧ c.values.getD 1 0 ≠ c.values.getD 0 0) :
    STTransform.from_coords coords order =
      Except.ok ⟨order, coords.map DataCoord.dim,
        coords.map (fun c => c.unitsAttr.getD "m"),
        coords.map (fun c => c.values.getD 0 0),
        coords.map (fun c => pyAbs (c.values.getD 1 0 - c.values.getD 0 0))⟩ :=
  from_coords_ok order (fun c hc => canInfer_of_ne (h c hc).1 (h c hc).2)

/-- Witness for C8 at a concrete two-coordinate input, with a unit annotation on
one coordinate and none on the other. -/
theorem C8_witness :
    (∀ c ∈ ([⟨"x", [2, 5, 100], none⟩, ⟨"y", [7, 3], some "nm"⟩] : List DataCoord),
        2 ≤ c.values.length ∧ c.values.getD 1 0 ≠ c.values.getD 0 0) ∧
    STTransform.from_coords [⟨"x", [2, 5, 100], none⟩, ⟨"y", [7, 3], some "nm"⟩]
        AxisOrder.C =
      Except.ok ⟨AxisOrder.C, ["x", "y"], ["m", "nm"], [2, 7], [3, 4]⟩ :=
  have hh : ∀ c ∈ ([⟨"x", [2, 5, 100], none⟩, ⟨"y", [7, 3], some "nm"⟩] :
      List DataCoord), 2 ≤ c.values.length ∧ c.values.getD 1 0 ≠ c.values.getD 0 0 := by
    with_unfolding_all decide
  ⟨hh, (C8_inference_field_mapping _ AxisOrder.C hh).trans (by with_unfolding_all decide)⟩

/-- C9: for an array whose per-axis coordinates each allow inference (≥ 2
elements, positive spacing), `from_xarray` with `reverse_axes = true` yields the
reversed axes sequence of the `reverse_axes = false` result, with orders "F" and
"C" respectively. -/
theorem C9_reverse_axes (a : DataArray) (h : ∀ c ∈ a.coords, canInfer c) :
    ∃ tC tF, STTransform.from_xarray a false = Except.ok tC ∧
      STTransform.from_xarray a true = Except.ok tF ∧
      tF.axes = tC.axes.reverse ∧ tC.order = AxisOrder.C ∧
      tF.order = AxisOrder.F := by
  have hrev : ∀ c ∈ a.coords.reverse, canInfer c :=
    fun c hc => h c (List.mem_reverse.mp hc)
  have hC : STTransform.from_xarray a false =
      Except.ok ⟨AxisOrder.C, a.coords.map DataCoord.dim,
        a.coords.map (fun c => c.unitsAttr.getD "m"),
        a.coords.map (fun c => c.values.getD 0 0),
        a.coords.map (fun c => pyAbs (c.values.getD 1 0 - c.values.getD 0 0))⟩ :=
    from_coords_ok AxisOrder.C h
  have hF : STTransform.from_xarray a true =
      Except.ok ⟨AxisOrder.F, a.coords.reverse.map DataCoord.dim,
        a.coords.reverse.map (fun c => c.unitsAttr.getD "m"),
        a.coords.reverse.map (fun c => c.values.getD 0 0),
        a.coords.reverse.map (fun c => pyAbs (c.values.getD 1 0 - c.values.getD 0 0))⟩ :=
    from_coords_ok AxisOrder.F hrev
  exact ⟨_, _, hC, hF, by simp [List.map_reverse], rfl, rfl⟩

/-- Witness for C9 at a concrete two-axis array. -/
theorem C9_witness :
    (∀ c ∈ (DataArray.mk [⟨"x", [0, 1], some "nm"⟩, ⟨"y", [5, 9], some "um"⟩]
        [2, 2] none "uint8").coords, canInfer c) ∧
    (∃ tC tF,
      STTransform.from_xarray
          (DataArray.mk [⟨"x", [0, 1], some "nm"⟩, ⟨"y", [5, 9], some "um"⟩]
            [2, 2] none "uint8") false = Except.ok tC ∧
      STTransform.from_xarray
          (DataArray.mk [⟨"x", [0, 1], some "nm"⟩, ⟨"y", [5, 9], some "um"⟩]
            [2, 2] none "uint8") true = Except.ok tF ∧
      tF.axes = tC.axes.reverse ∧ tC.order = AxisOrder.C ∧
      tF.order = AxisOrder.F) :=
  have hh : ∀ c ∈ (DataArray.mk [⟨"x", [0, 1], some "nm"⟩, ⟨"y", [5, 9], some "um"⟩]
      [2, 2] none "uint8").coords, canInfer c := by
    with_unfolding_all decide
  ⟨hh, C9_reverse_axes _ hh⟩

/-- C10: inference depends only on each coordinate sequence's dimension name,
unit annotation and first two values: for two coordinate lists related pairwise
by `sameFirstTwo`, `from_coords` returns equal results, regardless of the
remaining samples. -/
theorem C10_first_two_determine (coords₁ coords₂ : List DataCoord)
    (order : AxisOrder) (h : List.Forall₂ sameFirstTwo coords₁ coords₂) :
    STTransform.from_coords coords₁ order = STTransform.from_coords coords₂ order := by
  rw [STTransform.from_coords, STTransform.from_coords, inferLoop_congr h]

/-- Witness for C10: two coordinate lists sharing dimension, unit and first two
values but with different (and differently many) later samples. -/
theorem C10_witness :
    List.Forall₂ sameFirstTwo [⟨"x", [0, 1, 7], some "nm"⟩]
        [⟨"x", [0, 1, 2, 3], some "nm"⟩] ∧
    STTransform.from_coords [⟨"x", [0, 1, 7], some "nm"⟩] AxisOrder.C =
      STTransform.from_coords [⟨"x", [0, 1, 2, 3], some "nm"⟩] AxisOrder.C :=
  have hf : List.Forall₂ sameFirstTwo [⟨"x", [0, 1, 7], some "nm"⟩]
      [⟨"x", [0, 1, 2, 3], some "nm"⟩] :=
    List.Forall₂.cons ⟨rfl, rfl, rfl⟩ List.Forall₂.nil
  ⟨hf, C10_first_two_determine _ _ AxisOrder.C hf⟩

/-- A valid column-major transform (equal-length sequences, strictly positive
scales) used to evaluate the round-trip at a concrete input: axis "x" has unit
"nm", translate 0 and scale 1; axis "y" has unit "um", translate 10 and scale 2. -/
def tColMajor : STTransform :=
  ⟨AxisOrder.F, ["x", "y"], ["nm", "um"], [0, 10], [1, 2]⟩

/-- C1: evaluating the code at the valid column-major transform `tColMajor` and
shape (2, 2) shows the round-trip failing: inferring from `to_coords` output
(directly, or with the coordinate order reversed as `from_xarray` with
`reverse_axes` would) yields a transform different from the original, because
`to_coords` pairs reversed axis names with unreversed scale/translate/unit
values. -/
theorem C1_roundtrip_fails_for_column_major :
    STTransform.from_coords (tColMajor.to_coords [2, 2]) AxisOrder.F =
      Except.ok ⟨AxisOrder.F, ["y", "x"], ["nm", "um"], [0, 10], [1, 2]⟩ ∧
    (⟨AxisOrder.F, ["y", "x"], ["nm", "um"], [0, 10], [1, 2]⟩ : STTransform) ≠
      tColMajor ∧
    STTransform.from_coords (tColMajor.to_coords [2, 2]).reverse AxisOrder.F =
      Except.ok ⟨AxisOrder.F, ["x", "y"], ["um", "nm"], [10, 0], [2, 1]⟩ ∧
    (⟨AxisOrder.F, ["x", "y"], ["um", "nm"], [10, 0], [2, 1]⟩ : STTransform) ≠
      tColMajor := by
  with_unfolding_all decide

/-- C3: evaluating `to_coords` at `tColMajor` (axes ["x", "y"], units
["nm", "um"], translate [0, 10], scale [1, 2]) and shape (2, 2) shows the
coordinate named "y" carrying unit "nm", first value 0 and spacing 1 — the
values belonging to axis position 0 ("x") — instead of "um", 10 and 2: the
per-axis scale/translate/unit lookups are not reversed along with the axis
names. -/
theorem C3_to_coords_mispairs_axis_values :
    tColMajor.axes = ["x", "y"] ∧ tColMajor.units = ["nm", "um"] ∧
    tColMajor.translate = [0, 10] ∧ tColMajor.scale = [1, 2] ∧
    (tColMajor.to_coords [2, 2]).map
        (fun c => (c.dim, c.unitsAttr, c.values.getD 0 0,
          c.values.getD 1 0 - c.values.getD 0 0)) =
      [("y", some "nm", 0, 1), ("x", some "um", 10, 2)] := by
  with_unfolding_all decide

/-- The concrete input mapping used to evaluate the v1 group builder: one scale
named "s0" over a 1-D array of shape (4,) with unchunked data. -/
def c2Arrays : List (String × DataArray) :=
  [("s0", ⟨[⟨"x", [0, 1, 2, 3], some "nm"⟩], [4], none, "uint8"⟩)]

/-- C2: evaluating `CosemMultiscaleGroupV1.from_xarrays` at `c2Arrays` shows the
members mapping keyed by the resolved chunk shape `[4]` rather than by the input
name "s0", while the name "s0" is passed as the member's `chunks` — the zip in
the source binds its components in scrambled order. -/
theorem C2_members_keyed_by_chunks :
    (CosemMultiscaleGroupV1.from_xarrays c2Arrays ChunksArg.auto none).map
        (fun g => (g.members.map Prod.fst, g.members.map (fun m => m.2.chunks))) =
      Except.ok ([PyVal.ofShape [4]], [PyVal.ofStr "s0"]) ∧
    c2Arrays.map Prod.fst = ["s0"] ∧
    [PyVal.ofShape [4]] ≠ [PyVal.ofStr "s0"] := by
  with_unfolding_all decide

/-- C4: `multiscale_group` returns exactly
`CosemMultiscaleGroupV1.from_xarrays(arrays)` with all-default arguments — the
`chunks` argument and any extra keyword arguments have no effect. -/
theorem C4_multiscale_group_ignores_chunks_and_kwargs
    (arrays : List (String × DataArray)) (chunks : ChunksArg)
    (kwargs : List (String × PyVal)) :
    multiscale_group arrays chunks kwargs =
      CosemMultiscaleGroupV1.from_xarrays arrays ChunksArg.auto none := rfl

/-- Two valid single-axis arrays used to evaluate the v2 builder with a
mismatched explicit path list. -/
def c5Arrays : List DataArray :=
  [⟨[⟨"x", [0, 1], some "nm"⟩], [2], none, "uint8"⟩,
   ⟨[⟨"x", [0, 2], some "nm"⟩], [2], none, "uint8"⟩]

/-- C5 counterexample: an explicit path-policy list of length 1 over 2 input
arrays does not fail — the builder returns a document, with the members
truncated by `zip` to the single supplied path. -/
theorem C5_counterexample :
    c5Arrays.length = 2 ∧ (["s0"] : List String).length = 1 ∧
    CosemMultiscaleGroupV2.from_xarrays c5Arrays ChunksArg.auto
        (PathsArg.explicit ["s0"]) none =
      Except.ok ⟨⟨[⟨none, ["s0"]⟩]⟩,
        [(PyVal.ofStr "s0", ⟨[2], "uint8", PyVal.ofShape [2],
          ⟨⟨AxisOrder.C, ["x"], ["nm"], [0], [1]⟩⟩⟩)]⟩ := by
  with_unfolding_all decide

/-- C5 (amended): an explicit chunk-policy list whose length differs from the
array count makes both group builders fail immediately with a validation error
and no document; the corresponding check is not performed for path policies. -/
theorem C5_explicit_chunk_length_mismatch_fails
    (arrs1 : List (String × DataArray)) (arrs2 : List DataArray)
    (cs1 cs2 : List (List Nat)) (paths : PathsArg) (name1 name2 : Option String)
    (h1 : cs1.length ≠ arrs1.length) (h2 : cs2.length ≠ arrs2.length) :
    (∃ e, CosemMultiscaleGroupV1.from_xarrays arrs1 (ChunksArg.explicit cs1)
        name1 = Except.error e) ∧
    (∃ e, CosemMultiscaleGroupV2.from_xarrays arrs2 (ChunksArg.explicit cs2)
        paths name2 = Except.error e) := by
  constructor
  · have hn : normalize_chunks (arrs1.map Prod.snd) (ChunksArg.explicit cs1) =
        Except.error
          "PolicyLengthMismatch: the number of chunks does not match the number of arrays" := by
      exact if_neg (by simpa using h1)
    refine ⟨"PolicyLengthMismatch: the number of chunks does not match the number of arrays", ?_⟩
    unfold CosemMultiscaleGroupV1.from_xarrays
    rw [hn]
  · have hn : normalize_chunks arrs2 (ChunksArg.explicit cs2) =
        Except.error
          "PolicyLengthMismatch: the number of chunks does not match the number of arrays" := by
      exact if_neg h2
    refine ⟨"PolicyLengthMismatch: the number of chunks does not match the number of arrays", ?_⟩
    unfold CosemMultiscaleGroupV2.from_xarrays
    rw [hn]

/-- Witness for C5 (amended) at concrete inputs: one chunk shape supplied for
zero arrays fails in both builders. -/
theorem C5_witness :
    (([[2]] : List (List Nat)).length ≠ ([] : List (String × DataArray)).length) ∧
    (([[3]] : List (List Nat)).length ≠ ([] : List DataArray).length) ∧
    (∃ e, CosemMultiscaleGroupV1.from_xarrays [] (ChunksArg.explicit [[2]]) none =
        Except.error e) ∧
    (∃ e, CosemMultiscaleGroupV2.from_xarrays [] (ChunksArg.explicit [[3]])
        PathsArg.auto none = Except.error e) :=
  have h1 : ([[2]] : List (List Nat)).length ≠
      ([] : List (String × DataArray)).length := by decide
  have h2 : ([[3]] : List (List Nat)).length ≠ ([] : List DataArray).length := by
    decide
  have hc := C5_explicit_chunk_length_mismatch_fails [] [] [[2]] [[3]]
    PathsArg.auto none none h1 h2
  ⟨h1, h2, hc.1, hc.2⟩
